import Mathlib

/-!
Verification of `codex.py` (Codex-Lite): a shallow embedding in Lean 4 of
the multi-stage answer pipeline (`CodexLite`), the HTTP request router
(`CodexLiteHandler.do_POST`), and the static asset server
(`CodexLiteHandler._serve_file` / `do_GET`), together with theorems about
the specified behavior.

Modelling conventions:
- Python strings are Lean `String`s; `bytes` values are `ByteArray`
  (for UTF-8 encoded JSON bodies) or `List Nat` (for file contents).
- JSON values returned by `json.loads` are the inductive `Json` below;
  a JSON parse failure is represented by passing `none` to the handler.
- Python floats (the `temperature` field) are modelled as rationals;
  the only temperature values the code manipulates are threaded through
  unchanged or set to the literal `0.0`.
- Exceptions propagating out of Python code are modelled with `Except`:
  `Except.error e` means the exception `e` escaped uncaught (so no HTTP
  response was written for that request).
- Filesystem paths are lists of components of an absolute path (the list
  for `/a/b` is `["a", "b"]`); `Path.resolve()` is modelled as lexical
  normalization, i.e. a filesystem without symbolic links.
-/

/-- JSON values as produced by Python `json.loads`. JSON numbers are
modelled as integers (the claims under study involve no fractional
number literals). -/
inductive Json where
  | null
  | bool (b : Bool)
  | num (n : Int)
  | str (s : String)
  | arr (xs : List Json)
  | obj (fields : List (String × Json))

/-- Whether a JSON value is an object (a Python `dict` after `json.loads`);
only objects support the `.get` attribute used at `payload.get("prompt", "")`. -/
def Json.isObj : Json → Bool
  | .obj _ => true
  | _ => false

/-- Python `dict.get(key, default)` on a dict built by `json.loads`:
with duplicate keys the last binding wins, so lookup scans from the end. -/
def jsonGet (fields : List (String × Json)) (key : String) (dflt : Json) : Json :=
  match fields.reverse.find? (fun kv => kv.1 == key) with
  | some kv => kv.2
  | none => dflt

/-- A single-quote character, used by Python `repr` of strings. -/
def pyQuote : String := String.singleton (Char.ofNat 39)

mutual

/-- Python `repr` of a value decoded from JSON (escape sequences inside
string reprs are not modelled; no claim depends on them). -/
def pyRepr : Json → String
  | .null => "None"
  | .bool b => if b then "True" else "False"
  | .num n => toString n
  | .str s => pyQuote ++ s ++ pyQuote
  | .arr xs => "[" ++ pyReprList xs ++ "]"
  | .obj fs => "\x7b" ++ pyReprFields fs ++ "\x7d"

/-- Comma-separated reprs of list elements. -/
def pyReprList : List Json → String
  | [] => ""
  | [x] => pyRepr x
  | x :: xs => pyRepr x ++ ", " ++ pyReprList xs

/-- Comma-separated `key: value` reprs of dict entries. -/
def pyReprFields : List (String × Json) → String
  | [] => ""
  | [(k, v)] => pyQuote ++ k ++ pyQuote ++ ": " ++ pyRepr v
  | (k, v) :: fs => pyQuote ++ k ++ pyQuote ++ ": " ++ pyRepr v ++ ", " ++ pyReprFields fs

end

/-- Python `str` applied to a value decoded from JSON: the identity on
strings, `repr` otherwise (`str(None) = "None"`, `str(True) = "True"`, ...). -/
def pyStr : Json → String
  | .str s => s
  | v => pyRepr v

/-- The whitespace set of Python `str.strip()` (ASCII part; exotic Unicode
whitespace is not modelled, no claim depends on it). -/
def isPyWs (c : Char) : Bool :=
  c = ' ' || c = '\t' || c = '\n' || c = '\x0d' || c = '\x0b' || c = '\x0c'

/-- Python `str.strip()`: remove leading and trailing whitespace. -/
def pyStrip (s : String) : String :=
  String.mk (((s.data.dropWhile isPyWs).reverse.dropWhile isPyWs).reverse)

/-- Escape one character as Python `json.dumps` does (the common cases;
`ensure_ascii` escaping of non-ASCII characters is not modelled). -/
def jsonEscapeChar (c : Char) : String :=
  if c = '\x22' then "\\\x22"
  else if c = '\\' then "\\\\"
  else if c = '\n' then "\\n"
  else if c = '\t' then "\\t"
  else if c = '\x0d' then "\\r"
  else String.singleton c

/-- Escape a string body for JSON serialization. -/
def jsonEscape (s : String) : String :=
  String.join (s.data.map jsonEscapeChar)

mutual

/-- Python `json.dumps` with its default separators `", "` and `": "`. -/
def jsonDumps : Json → String
  | .null => "null"
  | .bool b => if b then "true" else "false"
  | .num n => toString n
  | .str s => "\x22" ++ jsonEscape s ++ "\x22"
  | .arr xs => "[" ++ jsonDumpsList xs ++ "]"
  | .obj fs => "\x7b" ++ jsonDumpsFields fs ++ "\x7d"

/-- Serialize array elements, comma-separated. -/
def jsonDumpsList : List Json → String
  | [] => ""
  | [x] => jsonDumps x
  | x :: xs => jsonDumps x ++ ", " ++ jsonDumpsList xs

/-- Serialize object entries, comma-separated. -/
def jsonDumpsFields : List (String × Json) → String
  | [] => ""
  | [(k, v)] => "\x22" ++ jsonEscape k ++ "\x22: " ++ jsonDumps v
  | (k, v) :: fs =>
      "\x22" ++ jsonEscape k ++ "\x22: " ++ jsonDumps v ++ ", " ++ jsonDumpsFields fs

end

/-- A JSON HTTP response as assembled by `CodexLiteHandler._send_json`:
status line, Content-Type header, Content-Length header, and the body
bytes actually written to the socket. -/
structure JsonResponse where
  status : Nat
  contentType : String
  contentLength : Nat
  body : ByteArray

/-- `CodexLiteHandler._send_json(payload, status)`:
`body = json.dumps(payload).encode("utf-8")`, then status line,
`Content-Type: application/json; charset=utf-8`,
`Content-Length: str(len(body))`, and the body. -/
def sendJson (payload : Json) (status : Nat) : JsonResponse :=
  let body := (jsonDumps payload).toUTF8
  { status := status
    contentType := "application/json; charset=utf-8"
    contentLength := body.size
    body := body }

/-- The two response shapes `do_POST` can produce: `send_error(status)`
or a `_send_json` response. -/
inductive PostResponse where
  | httpError (status : Nat)
  | json (r : JsonResponse)

/-- A chat message: a role tag (`system` or `user`) and text content,
as placed in the `input` list of `client.responses.create`. -/
structure Message where
  role : String
  content : String
deriving DecidableEq

/-- One call to `client.responses.create`: the keyword arguments the
pipeline passes (model, temperature, max_output_tokens, input messages). -/
structure StageCall where
  model : String
  temperature : Rat
  max_output_tokens : Nat
  input : List Message
deriving DecidableEq

/-- `LiteConfig`: model name, temperature, and the three token budgets,
with the source's default values (the float 0.1 as a rational). -/
structure LiteConfig where
  model : String := "gpt-4o-mini"
  temperature : Rat := 0.1
  max_tokens : Nat := 900
  planning_tokens : Nat := 280
  critique_tokens : Nat := 280

/-- `SYSTEM_PROMPT`: the dedented and stripped persona text. -/
def SYSTEM_PROMPT : String :=
  "You are Codex-Lite, a high-signal coding assistant.\n\nCore behavior:\n- Prioritize correctness, then clarity, then brevity.\n- Provide complete code when asked for code.\n- Explain assumptions and call out uncertainty explicitly.\n- Include tests/checks and exact commands to validate.\n- Prefer practical, idiomatic patterns over clever tricks.\n\nOutput format for coding tasks:\n1) Brief approach summary.\n2) Implementation (code/steps).\n3) Verification commands.\n4) Risks or edge cases."

/-- The Plan-stage call of `CodexLite.answer`. -/
def planCall (cfg : LiteConfig) (user_input : String) : StageCall :=
  { model := cfg.model
    temperature := cfg.temperature
    max_output_tokens := cfg.planning_tokens
    input := [⟨"system", SYSTEM_PROMPT⟩,
              ⟨"user", "Create a concise implementation plan for this coding request. Include assumptions, test strategy, and likely edge cases.\n\nRequest: " ++ user_input⟩] }

/-- The Draft-stage call of `CodexLite.answer`; its prompt interpolates
the original input and the Plan stage's output text. -/
def draftCall (cfg : LiteConfig) (user_input plan_text : String) : StageCall :=
  { model := cfg.model
    temperature := cfg.temperature
    max_output_tokens := cfg.max_tokens
    input := [⟨"system", SYSTEM_PROMPT⟩,
              ⟨"user", "User request: " ++ user_input ++ "\n\nImplementation plan: " ++ plan_text ++ "\n\nWrite the best possible answer for a coding user."⟩] }

/-- The Critique-stage call of `CodexLite.answer`; temperature is the
literal 0.0 in the source, and the prompt interpolates the original
input and the Draft stage's output text. -/
def critiqueCall (cfg : LiteConfig) (user_input draft_text : String) : StageCall :=
  { model := cfg.model
    temperature := 0
    max_output_tokens := cfg.critique_tokens
    input := [⟨"system", SYSTEM_PROMPT⟩,
              ⟨"user", "Critique the draft answer for correctness, omissions, weak tests, and unclear assumptions. Return only actionable improvements.\n\nUser request: " ++ user_input ++ "\n\nDraft answer: " ++ draft_text⟩] }

/-- The Final-stage call of `CodexLite.answer`; its prompt interpolates
the original input and the Plan, Draft, and Critique output texts. -/
def finalCall (cfg : LiteConfig) (user_input plan_text draft_text critique_text : String) : StageCall :=
  { model := cfg.model
    temperature := cfg.temperature
    max_output_tokens := cfg.max_tokens
    input := [⟨"system", SYSTEM_PROMPT⟩,
              ⟨"user", "User request: " ++ user_input ++ "\n\nPlan: " ++ plan_text ++ "\n\nDraft: " ++ draft_text ++ "\n\nCritique: " ++ critique_text ++ "\n\nProduce the improved final answer, incorporating critique fixes."⟩] }

/-- The with-adapter path of `CodexLite.answer`: four sequential
`responses.create` calls, each consuming the previous outputs. The
oracle stands for the external completion service: it maps a call to
its `output_text`, or to an exception that aborts the pipeline. The
result pairs the returned value (or escaped exception) with the list of
calls actually issued, in order. -/
def answerOnline (cfg : LiteConfig) (oracle : StageCall → Except String String)
    (user_input : String) : Except String String × List StageCall :=
  let c1 := planCall cfg user_input
  match oracle c1 with
  | .error e => (.error e, [c1])
  | .ok plan_text =>
    let c2 := draftCall cfg user_input plan_text
    match oracle c2 with
    | .error e => (.error e, [c1, c2])
    | .ok draft_text =>
      let c3 := critiqueCall cfg user_input draft_text
      match oracle c3 with
      | .error e => (.error e, [c1, c2, c3])
      | .ok critique_text =>
        let c4 := finalCall cfg user_input plan_text draft_text critique_text
        match oracle c4 with
        | .error e => (.error e, [c1, c2, c3, c4])
        | .ok final_text => (.ok final_text, [c1, c2, c3, c4])

/-- The fixed text of `CodexLite._offline_answer` before the interpolated
user input: the source newline-joins a fixed list of lines, with the
user input interpolated in the `Restate request` line; this constant is
the join of everything before it on that line. -/
def offlinePre : String :=
  "Offline mode (no OpenAI SDK and/or OPENAI_API_KEY).\n\nApproach summary:\n- I will still optimize for coding quality by using a strict response scaffold.\n\nImplementation:\n- Restate request: "

/-- The fixed text of `CodexLite._offline_answer` after the interpolated
user input (the join of the remaining lines). -/
def offlinePost : String :=
  "\n- Break work into: requirements -> design -> implementation -> tests.\n- Produce minimal, runnable code and avoid hidden assumptions.\n\nVerification commands:\n- Run formatter/linter for your language (e.g., ruff, black, eslint, gofmt).\n- Run unit tests and a focused smoke test of the changed behavior.\n\nRisks or edge cases:\n- Missing constraints (runtime, framework, API shape) can cause wrong choices.\n- If you share those constraints, I can return a concrete production-ready patch."

/-- `CodexLite._offline_answer(user_input)`. -/
def offline_answer (user_input : String) : String :=
  offlinePre ++ user_input ++ offlinePost

/-- `CodexLite.answer(user_input)`: offline fallback when no client is
configured (no external calls: empty call list), otherwise the four-stage
online pipeline. -/
def answer (cfg : LiteConfig) (client : Option (StageCall → Except String String))
    (user_input : String) : Except String String × List StageCall :=
  match client with
  | none => (.ok (offline_answer user_input), [])
  | some oracle => answerOnline cfg oracle user_input

/-- `_get_openai_client()`: `none` when the API key environment variable
is unset or the SDK cannot be found, otherwise the constructed client
(here: the completion oracle it would give access to). -/
def _get_openai_client (api_key_set sdk_available : Bool)
    (client : StageCall → Except String String) : Option (StageCall → Except String String) :=
  if !api_key_set then none
  else if !sdk_available then none
  else some client

/-- An oracle for a completion service that never fails. -/
def pureOracle (f : StageCall → String) : StageCall → Except String String :=
  fun c => .ok (f c)

/-- `CodexLiteHandler.do_POST`. The `assistant` argument is the class
attribute (an answer function when a `CodexLite` is configured); `body`
is the outcome of `json.loads` on the request body (`none` = parse
failure, i.e. `json.JSONDecodeError`). The result pairs either a
response or an uncaught exception (`Except.error`, in which case no
response is written) with the list of prompts passed to the assistant
(empty = the Pipeline Engine was never invoked). -/
def doPOST (assistant : Option (String → Except String String)) (path : String)
    (body : Option Json) : Except String PostResponse × List String :=
  if path ≠ "/api/ask" then (.ok (.httpError 404), [])
  else
    match assistant with
    | none => (.ok (.json (sendJson (.obj [("error", .str "assistant not configured")]) 500)), [])
    | some answerFn =>
      match body with
      | none => (.ok (.json (sendJson (.obj [("error", .str "invalid JSON body")]) 400)), [])
      | some (.obj fields) =>
        let prompt := pyStrip (pyStr (jsonGet fields "prompt" (.str "")))
        if prompt = "" then
          (.ok (.json (sendJson (.obj [("error", .str "prompt is required")]) 400)), [])
        else
          match answerFn prompt with
          | .error e => (.error e, [prompt])
          | .ok ans => (.ok (.json (sendJson (.obj [("answer", .str ans)]) 200)), [prompt])
      | some _ =>
        -- `payload.get("prompt", "")` on a non-dict raises AttributeError,
        -- which nothing in `do_POST` catches.
        (.error "AttributeError", [])

/-- What a stat of a resolved path can find: nothing, a directory, or a
regular file with its byte content. -/
inductive FileKind where
  | absent
  | dir
  | file (content : List Nat)
deriving DecidableEq

/-- A filesystem: the kind found at each absolute path. -/
def FsModel := (List String) → FileKind

/-- The filesystem operations `_serve_file` can perform after the
containment check: `exists()`, `is_dir()`, `read_bytes()`. -/
inductive FsAccess where
  | existsCheck (p : List String)
  | isDirCheck (p : List String)
  | readBytes (p : List String)
deriving DecidableEq

/-- Responses of the static file path: `send_error(status)` or a 200
with content type, Content-Length, and the file bytes. -/
inductive GetResponse where
  | errorResp (status : Nat)
  | fileResp (contentType : String) (contentLength : Nat) (body : List Nat)
deriving DecidableEq

/-- One step of lexical path resolution: empty and `.` components are
dropped, `..` moves up one component (staying put at the filesystem
root), anything else descends. -/
def resolveStep (acc : List String) (c : String) : List String :=
  if c = "" || c = "." then acc
  else if c = ".." then acc.dropLast
  else acc ++ [c]

/-- Resolve a component sequence starting from an absolute base path. -/
def resolveComponents (base : List String) (comps : List String) : List String :=
  comps.foldl resolveStep base

/-- Split a character list at every occurrence of `sep` (the semantics
of `String.splitOn` with a one-character separator). -/
def splitOnChar (sep : Char) : List Char → List (List Char)
  | [] => [[]]
  | c :: rest =>
    match splitOnChar sep rest with
    | [] => if c = sep then [[], []] else [[c]]
    | g :: gs => if c = sep then [] :: g :: gs else (c :: g) :: gs

/-- The slash-separated components of a path string. -/
def pathComponents (rel : String) : List String :=
  (splitOnChar '/' rel.data).map String.mk

/-- Whether `s` starts with the literal `p` (`str.startswith`). -/
def strStartsWith (s p : String) : Bool :=
  p.data.isPrefixOf s.data

/-- `(root / rel).resolve()` on a filesystem without symbolic links:
an absolute `rel` discards `root` (as `pathlib` joining does), otherwise
the components of `rel` are resolved against `root`. -/
def joinResolve (root : List String) (rel : String) : List String :=
  if strStartsWith rel "/" then resolveComponents [] (pathComponents rel)
  else resolveComponents root (pathComponents rel)

/-- `Path.parents` of an absolute path given by its components: every
proper ancestor, i.e. every proper prefix of the component list (the
filesystem root `[]` included). -/
def pathParents (p : List String) : List (List String) :=
  (List.range p.length).map (fun k => p.take k)

/-- `Path.name`: the final component (empty for the filesystem root). -/
def nameOf (p : List String) : String := p.getLastD ""

/-- Index of the last `.` in a character list (`str.rfind`), if any. -/
def lastDotIdx (cs : List Char) : Option Nat :=
  (cs.foldl (fun (st : Nat × Option Nat) c =>
    (st.1 + 1, if c = '.' then some st.1 else st.2)) ((0 : Nat), none)).2

/-- `Path.suffix` on a file name: the substring from the last dot on,
unless the dot is the first character, the last character, or absent. -/
def pathSuffix (name : String) : String :=
  match lastDotIdx name.data with
  | some i => if 0 < i && i + 1 < name.data.length then String.mk (name.data.drop i) else ""
  | none => ""

/-- The content-type selection of `_serve_file`: plain text unless the
resolved path's suffix is `.html`, `.css`, or `.js`. -/
def contentTypeFor (p : List String) : String :=
  if pathSuffix (nameOf p) = ".html" then "text/html; charset=utf-8"
  else if pathSuffix (nameOf p) = ".css" then "text/css; charset=utf-8"
  else if pathSuffix (nameOf p) = ".js" then "application/javascript; charset=utf-8"
  else "text/plain; charset=utf-8"

/-- `CodexLiteHandler._serve_file(relative_path)` over the filesystem
model `fs` with web root `webDir`: resolve, reject escapes with 403
before any file access, then 404 for missing paths and directories,
else 200 with the raw bytes. The second component records every
filesystem access performed, in order. -/
def serveFile (fs : FsModel) (webDir : List String) (relative_path : String) :
    GetResponse × List FsAccess :=
  let safe_path := joinResolve webDir relative_path
  if webDir ∉ pathParents safe_path ∧ safe_path ≠ webDir then
    (.errorResp 403, [])
  else
    match fs safe_path with
    | .absent => (.errorResp 404, [.existsCheck safe_path])
    | .dir => (.errorResp 404, [.existsCheck safe_path, .isDirCheck safe_path])
    | .file content =>
        (.fileResp (contentTypeFor safe_path) content.length content,
         [.existsCheck safe_path, .isDirCheck safe_path, .readBytes safe_path])

/-- Python `str.lstrip("/")`: drop every leading slash. -/
def lstripSlash (s : String) : String :=
  String.mk (s.data.dropWhile (fun c => c = '/'))

/-- `CodexLiteHandler.do_GET`: `/` and `/index.html` serve the index,
paths under `/assets/` are served with their leading slash stripped,
everything else is 404. -/
def doGET (fs : FsModel) (webDir : List String) (path : String) :
    GetResponse × List FsAccess :=
  if path = "/" || path = "/index.html" then serveFile fs webDir "index.html"
  else if strStartsWith path "/assets/" then serveFile fs webDir (lstripSlash path)
  else (.errorResp 404, [])

/-- Substring containment: `needle` occurs literally inside `hay`. -/
def strContains (hay needle : String) : Prop :=
  ∃ pre post, hay = pre ++ needle ++ post

/-- A completion oracle whose first call raises (a network/API error at
the Plan stage), aborting the pipeline. -/
def failingOracle : StageCall → Except String String := fun _ => .error "APIError"

/-- An assistant wired to the failing completion service: the `answer`
bound method of a `CodexLite` (default config) whose client raises. -/
def failingAssistant : String → Except String String :=
  fun p => (answer {} (some failingOracle) p).1

/-- A sample filesystem with an index file inside the web root. -/
def demoFs : FsModel := fun p =>
  if p = ["srv", "web", "index.html"] then .file [104, 105] else .absent

/-- A sample filesystem where the target of an escaping traversal exists
outside the web root. -/
def escapedFs : FsModel := fun p =>
  if p = ["srv", "etc", "passwd"] then .file [115] else .absent

-- Helper lemmas about list prefixes and `pathParents`.

/-- Boolean prefix test on component lists (defined locally so that it
reduces structurally in the kernel). -/
def listPrefix : List String → List String → Bool
  | [], _ => true
  | _ :: _, [] => false
  | a :: as, b :: bs => a == b && listPrefix as bs

/-- Every list is a prefix of itself. -/
theorem self_listPrefix (l : List String) : listPrefix l l = true := by
  induction l with
  | nil => rfl
  | cons a as ih => simp [listPrefix, ih]

/-- `take` yields prefixes. -/
theorem take_listPrefix (k : Nat) (l : List String) : listPrefix (l.take k) l = true := by
  induction l generalizing k with
  | nil => cases k <;> rfl
  | cons a as ih => cases k with
    | zero => rfl
    | succ k => simp [List.take, listPrefix, ih]

/-- A Boolean prefix is a concatenation prefix. -/
theorem listPrefix_exists {l₁ l₂ : List String} (h : listPrefix l₁ l₂ = true) :
    ∃ t, l₂ = l₁ ++ t := by
  induction l₁ generalizing l₂ with
  | nil => exact ⟨l₂, rfl⟩
  | cons a as ih =>
    cases l₂ with
    | nil => exact Bool.noConfusion h
    | cons b bs =>
      rw [show listPrefix (a :: as) (b :: bs) = (a == b && listPrefix as bs) from rfl,
          Bool.and_eq_true] at h
      obtain ⟨t, ht⟩ := ih h.2
      exact ⟨t, by simp [eq_of_beq h.1, ht]⟩

/-- Concatenation prefixes are Boolean prefixes. -/
theorem append_listPrefix (l t : List String) : listPrefix l (l ++ t) = true := by
  induction l with
  | nil => rfl
  | cons a as ih => simp [listPrefix, ih]

/-- `take` of a list length recovers the left part of a concatenation. -/
theorem take_append_len (l t : List String) : (l ++ t).take l.length = l := by
  induction l with
  | nil => rfl
  | cons a as ih => simp [ih]

/-- Membership in `pathParents p` is exactly being a proper prefix of `p`. -/
theorem mem_pathParents {w p : List String} :
    w ∈ pathParents p ↔ (listPrefix w p = true ∧ w ≠ p) := by
  constructor
  · intro h
    rcases List.mem_map.mp h with ⟨k, hk, rfl⟩
    have hk' : k < p.length := List.mem_range.mp hk
    refine ⟨take_listPrefix k p, ?_⟩
    intro he
    have hlen : (p.take k).length = p.length := by rw [he]
    rw [List.length_take, min_eq_left (Nat.le_of_lt hk')] at hlen
    exact absurd hlen (Nat.ne_of_lt hk')
  · rintro ⟨h1, h2⟩
    rcases listPrefix_exists h1 with ⟨t, rfl⟩
    have ht : t ≠ [] := by rintro rfl; simp at h2
    refine List.mem_map.mpr ⟨w.length, List.mem_range.mpr ?_, take_append_len w t⟩
    have hpos : 0 < t.length := List.length_pos.mpr ht
    simp [List.length_append]
    omega

/-- The 403 branch of `_serve_file`: a resolved path that is neither the
web root nor below it is rejected before any filesystem access. -/
theorem serveFile_escape_403 (fs : FsModel) (webDir : List String) (rel : String)
    (h : listPrefix webDir (joinResolve webDir rel) = false) :
    serveFile fs webDir rel = (.errorResp 403, []) := by
  have hne : joinResolve webDir rel ≠ webDir := by
    intro he
    rw [he, self_listPrefix] at h
    cases h
  have hnm : webDir ∉ pathParents (joinResolve webDir rel) := by
    intro hm
    rw [(mem_pathParents.mp hm).1] at h
    cases h
  simp only [serveFile]
  rw [if_pos ⟨hnm, hne⟩]

/-- Resolving `..` pops the last component. -/
theorem resolveStep_up (l : List String) (a : String) :
    resolveStep (l ++ [a]) ".." = l := by
  show (l ++ [a]).dropLast = l
  exact List.dropLast_concat

/-- The traversal request `assets/../../etc/passwd` resolves to
`<parent of web root>/etc/passwd`. -/
theorem traversal_resolve (base : List String) :
    joinResolve (base ++ ["web"]) "assets/../../etc/passwd" = base ++ ["etc", "passwd"] := by
  show resolveComponents (base ++ ["web"]) ["assets", "..", "..", "etc", "passwd"]
    = base ++ ["etc", "passwd"]
  simp only [resolveComponents, List.foldl]
  rw [show resolveStep (base ++ ["web"]) "assets" = (base ++ ["web"]) ++ ["assets"] from rfl,
      resolveStep_up (base ++ ["web"]) "assets",
      resolveStep_up base "web",
      show resolveStep base "etc" = base ++ ["etc"] from rfl,
      show resolveStep (base ++ ["etc"]) "passwd" = (base ++ ["etc"]) ++ ["passwd"] from rfl]
  simp [List.append_assoc]

/-- A web root ending in `web` is never a prefix of its sibling
`etc/passwd` path. -/
theorem traversal_not_contained (base : List String) :
    listPrefix (base ++ ["web"]) (base ++ ["etc", "passwd"]) = false := by
  induction base with
  | nil => rfl
  | cons a bs ih => simp [List.cons_append, listPrefix, ih]

/-- Claim C1: the spec requires that a failure raised by the Pipeline
Engine during `answer` be converted by the Request Router into a
5xx-class response on that request. The code has no handler around
`self.assistant.answer(prompt)` in `do_POST`: evaluated at a concrete
POST to /api/ask with prompt "hi" against an assistant whose first
completion call raises, the model returns `Except.error` — the
exception escapes `do_POST` uncaught and no HTTP response at all is
written for that request (the claim, and the spec, say a 5xx response
is sent). -/
theorem c1_stage_failure_escapes_router :
    doPOST (some failingAssistant) "/api/ask" (some (.obj [("prompt", Json.str "hi")]))
      = (.error "APIError", ["hi"]) := rfl

/-- Claim C2: a resolved path that is neither the web root itself nor a
descendant of it is answered 403 with no filesystem access at all (the
access log stays empty), for every filesystem, web root, and requested
relative path; and a GET for `/assets/../../etc/passwd` resolves outside
any web root of the form `<base>/web` and is answered 403 with no file
access, independent of the filesystem (so in particular independent of
whether the escaped target exists, and never 200). -/
theorem c2_path_containment :
    (∀ (fs : FsModel) (webDir : List String) (rel : String),
        listPrefix webDir (joinResolve webDir rel) = false →
        serveFile fs webDir rel = (.errorResp 403, []))
    ∧ (∀ (base : List String) (fs : FsModel),
        doGET fs (base ++ ["web"]) "/assets/../../etc/passwd" = (.errorResp 403, [])) := by
  constructor
  · exact fun fs webDir rel h => serveFile_escape_403 fs webDir rel h
  · intro base fs
    show serveFile fs (base ++ ["web"]) "assets/../../etc/passwd" = (.errorResp 403, [])
    apply serveFile_escape_403
    rw [traversal_resolve base]
    exact traversal_not_contained base

/-- Witness for C2 at a concrete input: web root `/srv/web`, request
`../etc/passwd`, on a filesystem where the escaped target
`/srv/etc/passwd` exists — the resolution escapes the root and the
response is 403 with no file access. -/
theorem c2_witness :
    listPrefix ["srv", "web"] (joinResolve ["srv", "web"] "../etc/passwd") = false
    ∧ serveFile escapedFs ["srv", "web"] "../etc/passwd" = (.errorResp 403, []) :=
  ⟨by decide, c2_path_containment.1 escapedFs ["srv", "web"] "../etc/passwd" (by decide)⟩

/-- Claim C3 (counterexample): with no Pipeline Engine configured and a
body that fails JSON parsing, the router responds with the 500
`assistant not configured` payload — not the 400 `invalid JSON body`
response the claim requires regardless of configuration (the two
responses differ in their status). -/
theorem c3_counterexample_config_before_parse :
    doPOST none "/api/ask" none
      = (.ok (.json (sendJson (.obj [("error", Json.str "assistant not configured")]) 500)), [])
    ∧ (sendJson (.obj [("error", Json.str "assistant not configured")]) 500).status = 500
    ∧ (sendJson (.obj [("error", Json.str "invalid JSON body")]) 400).status = 400 :=
  ⟨rfl, rfl, rfl⟩

/-- Claim C3 (amended): when a Pipeline Engine is configured, a body
that fails JSON parsing yields 400 with the `invalid JSON body` payload
and the engine is never invoked (empty invocation log); the
configuration check precedes body parsing, so with no engine configured
every POST to /api/ask yields 500 `assistant not configured` regardless
of the body. -/
theorem c3_amended_parse_failure_400 :
    (∀ f : String → Except String String,
        doPOST (some f) "/api/ask" none
          = (.ok (.json (sendJson (.obj [("error", Json.str "invalid JSON body")]) 400)), []))
    ∧ (∀ body : Option Json,
        doPOST none "/api/ask" body
          = (.ok (.json (sendJson (.obj [("error", Json.str "assistant not configured")]) 500)),
             [])) :=
  ⟨fun _ => rfl, fun _ => rfl⟩

/-- Claim C4: for every configuration, completion service, and user
input, the four stage calls carry temperatures
`[configured, configured, 0, configured]` — the Critique stage (third
call) is issued with temperature exactly 0 while Plan, Draft, and Final
use the configured temperature; equivalently on the stage-call
constructors themselves. -/
theorem c4_critique_temperature_zero :
    ∀ (cfg : LiteConfig) (f : StageCall → String) (user_input : String),
      ((answer cfg (some (pureOracle f)) user_input).2).map StageCall.temperature
        = [cfg.temperature, cfg.temperature, 0, cfg.temperature]
      ∧ ∀ plan_text draft_text critique_text : String,
          (planCall cfg user_input).temperature = cfg.temperature
          ∧ (draftCall cfg user_input plan_text).temperature = cfg.temperature
          ∧ (critiqueCall cfg user_input draft_text).temperature = 0
          ∧ (finalCall cfg user_input plan_text draft_text critique_text).temperature
              = cfg.temperature :=
  fun _ _ _ => ⟨rfl, fun _ _ _ => ⟨rfl, rfl, rfl, rfl⟩⟩

/-- Claim C5: with an adapter configured, `answer` runs exactly the four
stage calls Plan, Draft, Critique, Final in that order — each later
call's prompt built from the earlier outputs of the same run — and
returns the Final stage's output text; and the Final-stage prompt is a
single user message containing, as literal substrings, the original
input and the Plan, Draft, and Critique outputs. -/
theorem c5_final_prompt_threading :
    ∀ (cfg : LiteConfig) (f : StageCall → String) (u : String),
      answer cfg (some (pureOracle f)) u
        = (.ok (f (finalCall cfg u (f (planCall cfg u))
              (f (draftCall cfg u (f (planCall cfg u))))
              (f (critiqueCall cfg u (f (draftCall cfg u (f (planCall cfg u)))))))),
           [planCall cfg u,
            draftCall cfg u (f (planCall cfg u)),
            critiqueCall cfg u (f (draftCall cfg u (f (planCall cfg u)))),
            finalCall cfg u (f (planCall cfg u))
              (f (draftCall cfg u (f (planCall cfg u))))
              (f (critiqueCall cfg u (f (draftCall cfg u (f (planCall cfg u))))))])
      ∧ ∀ plan_text draft_text critique_text : String,
          ∃ final_prompt : String,
            (finalCall cfg u plan_text draft_text critique_text).input
              = [⟨"system", SYSTEM_PROMPT⟩, ⟨"user", final_prompt⟩]
            ∧ strContains final_prompt u
            ∧ strContains final_prompt plan_text
            ∧ strContains final_prompt draft_text
            ∧ strContains final_prompt critique_text := by
  intro cfg f u
  refine ⟨rfl, ?_⟩
  intro p d c
  refine ⟨"User request: " ++ u ++ "\n\nPlan: " ++ p ++ "\n\nDraft: " ++ d ++ "\n\nCritique: "
      ++ c ++ "\n\nProduce the improved final answer, incorporating critique fixes.",
    rfl, ?_, ?_, ?_, ?_⟩
  · exact ⟨"User request: ",
      "\n\nPlan: " ++ p ++ "\n\nDraft: " ++ d ++ "\n\nCritique: " ++ c
        ++ "\n\nProduce the improved final answer, incorporating critique fixes.",
      by simp [String.append_assoc]⟩
  · exact ⟨"User request: " ++ u ++ "\n\nPlan: ",
      "\n\nDraft: " ++ d ++ "\n\nCritique: " ++ c
        ++ "\n\nProduce the improved final answer, incorporating critique fixes.",
      by simp [String.append_assoc]⟩
  · exact ⟨"User request: " ++ u ++ "\n\nPlan: " ++ p ++ "\n\nDraft: ",
      "\n\nCritique: " ++ c
        ++ "\n\nProduce the improved final answer, incorporating critique fixes.",
      by simp [String.append_assoc]⟩
  · exact ⟨"User request: " ++ u ++ "\n\nPlan: " ++ p ++ "\n\nDraft: " ++ d ++ "\n\nCritique: ",
      "\n\nProduce the improved final answer, incorporating critique fixes.",
      by simp [String.append_assoc]⟩

/-- Claim C6: with no adapter configured, `answer(p)` issues no external
calls (empty stage-call list), its result does not depend on the
configuration, is stable across repeated calls (the model is a pure
function), equals the fixed offline scaffold, and contains the prompt
`p` as a literal substring; and `_get_openai_client` yields no client
whenever the credential or the SDK is missing. -/
theorem c6_offline_answer_pure :
    ∀ p : String, pyStrip p ≠ "" →
      (∀ cfg₁ cfg₂ : LiteConfig, answer cfg₁ none p = answer cfg₂ none p)
      ∧ (∀ cfg : LiteConfig, (answer cfg none p).2 = [])
      ∧ (∀ cfg : LiteConfig, (answer cfg none p).1 = .ok (offline_answer p))
      ∧ strContains (offline_answer p) p
      ∧ (∀ (api_key_set sdk_available : Bool) (client : StageCall → Except String String),
          api_key_set = false ∨ sdk_available = false →
          _get_openai_client api_key_set sdk_available client = none) := by
  intro p _
  refine ⟨fun _ _ => rfl, fun _ => rfl, fun _ => rfl, ⟨offlinePre, offlinePost, rfl⟩, ?_⟩
  rintro key sdk client (rfl | rfl)
  · rfl
  · cases key <;> rfl

/-- Witness for C6 at the concrete prompt `"hi"`. -/
theorem c6_witness :
    pyStrip "hi" ≠ ""
    ∧ ((∀ cfg₁ cfg₂ : LiteConfig, answer cfg₁ none "hi" = answer cfg₂ none "hi")
      ∧ (∀ cfg : LiteConfig, (answer cfg none "hi").2 = [])
      ∧ (∀ cfg : LiteConfig, (answer cfg none "hi").1 = .ok (offline_answer "hi"))
      ∧ strContains (offline_answer "hi") "hi"
      ∧ (∀ (api_key_set sdk_available : Bool) (client : StageCall → Except String String),
          api_key_set = false ∨ sdk_available = false →
          _get_openai_client api_key_set sdk_available client = none)) :=
  ⟨by decide, c6_offline_answer_pure "hi" (by decide)⟩

/-- Claim C7 (counterexample): with no Pipeline Engine configured, a
POST to /api/ask whose body is the JSON object with a whitespace-only
prompt is answered with the 500 `assistant not configured` payload, not
the 400 `prompt is required` response the claim requires (the two
responses differ in their status). -/
theorem c7_counterexample_config_before_prompt :
    doPOST none "/api/ask" (some (.obj [("prompt", Json.str "  ")]))
      = (.ok (.json (sendJson (.obj [("error", Json.str "assistant not configured")]) 500)), [])
    ∧ (sendJson (.obj [("error", Json.str "assistant not configured")]) 500).status = 500
    ∧ (sendJson (.obj [("error", Json.str "prompt is required")]) 400).status = 400 :=
  ⟨rfl, rfl, rfl⟩

/-- Claim C7 (amended): when a Pipeline Engine is configured, every POST
to /api/ask whose body is a JSON object whose prompt field — looked up
with default "", coerced to string, and stripped — is empty (whitespace
-only prompts and missing prompt fields included) is answered 400 with
the `prompt is required` payload, and the engine is not invoked (empty
invocation log). -/
theorem c7_amended_empty_prompt_400 :
    ∀ (f : String → Except String String) (fields : List (String × Json)),
      pyStrip (pyStr (jsonGet fields "prompt" (Json.str ""))) = "" →
      doPOST (some f) "/api/ask" (some (.obj fields))
        = (.ok (.json (sendJson (.obj [("error", Json.str "prompt is required")]) 400)), []) := by
  intro f fields h
  have hred : doPOST (some f) "/api/ask" (some (.obj fields))
      = (if pyStrip (pyStr (jsonGet fields "prompt" (Json.str ""))) = "" then
          ((.ok (.json (sendJson (.obj [("error", Json.str "prompt is required")]) 400)), [])
            : Except String PostResponse × List String)
        else
          match f (pyStrip (pyStr (jsonGet fields "prompt" (Json.str "")))) with
          | .error e => (.error e, [pyStrip (pyStr (jsonGet fields "prompt" (Json.str "")))])
          | .ok ans =>
            (.ok (.json (sendJson (.obj [("answer", Json.str ans)]) 200)),
             [pyStrip (pyStr (jsonGet fields "prompt" (Json.str "")))])) := rfl
  rw [hred, if_pos h]

/-- Witness for C7 at the concrete body with prompt `"  "` (whitespace
only). -/
theorem c7_witness :
    pyStrip (pyStr (jsonGet [("prompt", Json.str "  ")] "prompt" (Json.str ""))) = ""
    ∧ doPOST (some (fun _ => Except.ok "ans")) "/api/ask"
        (some (.obj [("prompt", Json.str "  ")]))
      = (.ok (.json (sendJson (.obj [("error", Json.str "prompt is required")]) 400)), []) :=
  ⟨rfl, c7_amended_empty_prompt_400 (fun _ => Except.ok "ans") [("prompt", Json.str "  ")] rfl⟩

/-- Claim C8: every JSON response assembled by `_send_json` (success and
error payloads alike go through it) has as its body exactly the UTF-8
encoding of the serialized payload, a Content-Length equal to the byte
length of that body, the requested status, and the JSON content type. -/
theorem c8_send_json_content_length :
    ∀ (payload : Json) (status : Nat),
      (sendJson payload status).body = (jsonDumps payload).toUTF8
      ∧ (sendJson payload status).contentLength = (sendJson payload status).body.size
      ∧ (sendJson payload status).status = status
      ∧ (sendJson payload status).contentType = "application/json; charset=utf-8" :=
  fun _ _ => ⟨rfl, rfl, rfl, rfl⟩

/-- Claim C9: for a resolved path contained in the web root, a missing
path yields 404 (after only an existence check), a directory yields 404
(existence plus directory check), and a regular file yields 200 with the
file's raw bytes, a Content-Length equal to their count, and a content
type determined by the file extension; the extension mapping sends
`.html` to HTML, `.css` to CSS, `.js` to script, and anything else to
plain text. -/
theorem c9_contained_path_serving :
    (∀ (fs : FsModel) (webDir : List String) (rel : String),
        listPrefix webDir (joinResolve webDir rel) = true →
        (fs (joinResolve webDir rel) = .absent →
          serveFile fs webDir rel = (.errorResp 404, [.existsCheck (joinResolve webDir rel)]))
        ∧ (fs (joinResolve webDir rel) = .dir →
          serveFile fs webDir rel
            = (.errorResp 404,
               [.existsCheck (joinResolve webDir rel), .isDirCheck (joinResolve webDir rel)]))
        ∧ (∀ content : List Nat, fs (joinResolve webDir rel) = .file content →
          serveFile fs webDir rel
            = (.fileResp (contentTypeFor (joinResolve webDir rel)) content.length content,
               [.existsCheck (joinResolve webDir rel), .isDirCheck (joinResolve webDir rel),
                .readBytes (joinResolve webDir rel)])))
    ∧ (∀ q : List String,
        (pathSuffix (nameOf q) = ".html" → contentTypeFor q = "text/html; charset=utf-8")
        ∧ (pathSuffix (nameOf q) = ".css" → contentTypeFor q = "text/css; charset=utf-8")
        ∧ (pathSuffix (nameOf q) = ".js" →
            contentTypeFor q = "application/javascript; charset=utf-8")
        ∧ (pathSuffix (nameOf q) ≠ ".html" → pathSuffix (nameOf q) ≠ ".css" →
            pathSuffix (nameOf q) ≠ ".js" →
            contentTypeFor q = "text/plain; charset=utf-8")) := by
  constructor
  · intro fs webDir rel h
    have hcond : ¬ (webDir ∉ pathParents (joinResolve webDir rel)
        ∧ joinResolve webDir rel ≠ webDir) := by
      by_cases he : joinResolve webDir rel = webDir
      · rintro ⟨_, hne⟩; exact hne he
      · rintro ⟨hnm, _⟩
        exact hnm (mem_pathParents.mpr ⟨h, fun hw => he hw.symm⟩)
    refine ⟨?_, ?_, ?_⟩
    · intro hfs; simp only [serveFile]; rw [if_neg hcond, hfs]
    · intro hfs; simp only [serveFile]; rw [if_neg hcond, hfs]
    · intro content hfs; simp only [serveFile]; rw [if_neg hcond, hfs]
  · intro q
    refine ⟨?_, ?_, ?_, ?_⟩
    · intro h
      simp only [contentTypeFor]
      rw [if_pos h]
    · intro h
      have h1 : pathSuffix (nameOf q) ≠ ".html" := by rw [h]; decide
      simp only [contentTypeFor]
      rw [if_neg h1, if_pos h]
    · intro h
      have h1 : pathSuffix (nameOf q) ≠ ".html" := by rw [h]; decide
      have h2 : pathSuffix (nameOf q) ≠ ".css" := by rw [h]; decide
      simp only [contentTypeFor]
      rw [if_neg h1, if_neg h2, if_pos h]
    · intro h1 h2 h3
      simp only [contentTypeFor]
      rw [if_neg h1, if_neg h2, if_neg h3]

/-- Witness for C9: web root `/srv/web`, request `index.html`, a
filesystem holding that file with bytes `[104, 105]` — served 200 as
HTML with Content-Length 2 after the existence, directory, and read
accesses. -/
theorem c9_witness :
    listPrefix ["srv", "web"] (joinResolve ["srv", "web"] "index.html") = true
    ∧ demoFs ["srv", "web", "index.html"] = .file [104, 105]
    ∧ serveFile demoFs ["srv", "web"] "index.html"
        = (.fileResp "text/html; charset=utf-8" 2 [104, 105],
           [.existsCheck ["srv", "web", "index.html"], .isDirCheck ["srv", "web", "index.html"],
            .readBytes ["srv", "web", "index.html"]]) :=
  ⟨by decide, by decide,
    (c9_contained_path_serving.1 demoFs ["srv", "web"] "index.html" (by decide)).2.2
      [104, 105] (by decide)⟩

/-- Claim C10: with a Pipeline Engine configured, a POST to /api/ask
whose body parses as JSON that is not an object makes the handler raise
on the `.get` attribute access: the exception escapes `do_POST`
uncaught, no response of any kind is produced, and the engine is never
invoked. -/
theorem c10_nonobject_body_uncaught :
    ∀ (f : String → Except String String) (payload : Json),
      payload.isObj = false →
      doPOST (some f) "/api/ask" (some payload) = (.error "AttributeError", []) := by
  intro f payload h
  cases payload with
  | obj fields => simp [Json.isObj] at h
  | null => rfl
  | bool b => rfl
  | num n => rfl
  | str s => rfl
  | arr xs => rfl

/-- Witness for C10 at the concrete non-object body `5`. -/
theorem c10_witness :
    (Json.num 5).isObj = false
    ∧ doPOST (some (fun _ => Except.ok "ans")) "/api/ask" (some (Json.num 5))
        = (.error "AttributeError", []) :=
  ⟨rfl, c10_nonobject_body_uncaught (fun _ => Except.ok "ans") (Json.num 5) rfl⟩
